import Mathlib

/-!
Shallow embedding of the client-side scripts of the duo-gct-website
repository (src/scripts/app.js and the scroll-effects script in
src/unnamed/part_000), together with theorems settling the frozen claims
about their behaviour.

JavaScript numbers are modelled as `Rat` (all quantities involved are
exact decimal arithmetic here); `Option Rat` models a possibly-NaN
result.  DOM state touched by each component is modelled as an explicit
record, and event handlers become state-transition functions.
-/

namespace GCT

/-! ## Scroll progress bar (src/unnamed/part_000, `ScrollProgress.updateProgress`)

```js
const scrollTop = window.scrollY;
const docHeight = document.documentElement.scrollHeight - window.innerHeight;
const progress = docHeight > 0 ? (scrollTop / docHeight) * 100 : 0;
this.progressBar.style.width = `<percent>`;
```
The bar's width percentage is the returned `progress` value. -/

def updateProgress (scrollY scrollHeight innerHeight : Rat) : Rat :=
  let scrollTop := scrollY
  let docHeight := scrollHeight - innerHeight
  if docHeight > 0 then (scrollTop / docHeight) * 100 else 0

/-! ## Testimonial carousel (src/scripts/app.js, `initTestimonialCarousel`)

`goToSlide(index)` sets `currentSlide = index` and
`track.style.transform = translateX(-<index*100>%)`; the 5-second interval
runs `currentSlide = (currentSlide + 1) % slides.length; goToSlide(currentSlide)`. -/

structure CarouselState where
  currentSlide : Nat
  transform : String
deriving DecidableEq, Repr

def carouselTransform (index : Nat) : String :=
  "translateX(-" ++ toString (index * 100) ++ "%)"

def goToSlide (index : Nat) (_s : CarouselState) : CarouselState :=
  { currentSlide := index, transform := carouselTransform index }

def carouselAutoStep (slideCount : Nat) (s : CarouselState) : CarouselState :=
  goToSlide ((s.currentSlide + 1) % slideCount) s

/-! ## Page loader (src/scripts/app.js, `PageLoader.hide`)

`hide()` adds the `hidden` class to the loader element and schedules
`this.loader.remove()`; `loaderHide` is the resulting final loader state
once that scheduled removal has run.  `classList.add` appends the class
only when absent, and `remove()` on a detached node is a no-op. -/

structure LoaderState where
  classes : List String
  attached : Bool
deriving DecidableEq, Repr

def classListAdd (c : String) (classes : List String) : List String :=
  if c ∈ classes then classes else classes ++ [c]

def loaderHide (s : LoaderState) : LoaderState :=
  { classes := classListAdd "hidden" s.classes, attached := false }

/-! ## Scroll reveals (src/unnamed/part_000, `ScrollReveals`)

Elements carrying the `[data-reveal]` marker are indexed by `Fin n`; the
state tracks, per element, whether it carries the `revealed` class and
whether the observer is still tracking it.  The observer callback runs
`revealElement(entry.target); observer.unobserve(entry.target)` for each
entry with `isIntersecting`; `init` either observes all marked elements
(when `IntersectionObserver` is available) or runs `revealAll`. -/

structure RevealState (n : Nat) where
  revealed : Fin n → Bool
  observed : Fin n → Bool

def revealElement {n : Nat} (e : Fin n) (s : RevealState n) : RevealState n :=
  { s with revealed := Function.update s.revealed e true }

def unobserve {n : Nat} (e : Fin n) (s : RevealState n) : RevealState n :=
  { s with observed := Function.update s.observed e false }

def observerCallback {n : Nat} (e : Fin n) (isIntersecting : Bool) (s : RevealState n) :
    RevealState n :=
  if isIntersecting then unobserve e (revealElement e s) else s

def revealAll {n : Nat} (marked : Fin n → Bool) (s : RevealState n) : RevealState n :=
  { s with revealed := fun e => s.revealed e || marked e }

def observeElements {n : Nat} (marked : Fin n → Bool) (s : RevealState n) : RevealState n :=
  { s with observed := fun e => s.observed e || marked e }

def scrollRevealsInit {n : Nat} (hasIntersectionObserver : Bool) (marked : Fin n → Bool)
    (s : RevealState n) : RevealState n :=
  if hasIntersectionObserver then observeElements marked s else revealAll marked s

/-! ## FAQ accordion (src/scripts/app.js, `initFAQ`)

FAQ items are indexed by `Fin n`; the state records which items carry the
`open` class.  A click on item `clicked` first removes `open` from every
other item, then toggles `open` on the clicked item. -/

def faqCloseOthers {n : Nat} (clicked : Fin n) (openSt : Fin n → Bool) : Fin n → Bool :=
  fun item => if item = clicked then openSt item else false

def faqToggle {n : Nat} (clicked : Fin n) (openSt : Fin n → Bool) : Fin n → Bool :=
  Function.update openSt clicked (!openSt clicked)

def faqClick {n : Nat} (clicked : Fin n) (openSt : Fin n → Bool) : Fin n → Bool :=
  faqToggle clicked (faqCloseOthers clicked openSt)

/-! ## JavaScript string helpers

`jsTrim` models `String.prototype.trim` on the whitespace characters that can
occur in this site's markup; `jsStringToNumber` models the implicit ToNumber
coercion JavaScript applies to a string operand of `*`, restricted to decimal
literals (optional sign, digits, optional fraction, optional exponent).
Hexadecimal and `Infinity` forms do not occur in this repository's attributes
and are mapped to `none`, which stands for NaN. -/

def jsIsWhitespace (c : Char) : Bool :=
  c = ' ' || c = '\t' || c = '\n' || c = '\r' || c.toNat = 11 || c.toNat = 12

def jsTrim (s : String) : String :=
  String.mk (((s.toList.dropWhile jsIsWhitespace).reverse.dropWhile jsIsWhitespace).reverse)

def digitsToNat (cs : List Char) : Nat :=
  cs.foldl (fun a c => a * 10 + (c.toNat - '0'.toNat)) 0

def parseMantissa (cs : List Char) : Option (Rat × List Char) :=
  let ipart := cs.takeWhile Char.isDigit
  let rest := cs.dropWhile Char.isDigit
  match rest with
  | '.' :: rest2 =>
    let fpart := rest2.takeWhile Char.isDigit
    let rest3 := rest2.dropWhile Char.isDigit
    if ipart.isEmpty && fpart.isEmpty then none
    else some ((digitsToNat ipart : Rat)
      + (digitsToNat fpart : Rat) / (10 : Rat) ^ fpart.length, rest3)
  | _ => if ipart.isEmpty then none else some ((digitsToNat ipart : Rat), rest)

def parseSignedDigits (cs : List Char) : Option (Int × List Char) :=
  match cs with
  | '+' :: rest =>
    let ds := rest.takeWhile Char.isDigit
    if ds.isEmpty then none
    else some ((digitsToNat ds : Int), rest.dropWhile Char.isDigit)
  | '-' :: rest =>
    let ds := rest.takeWhile Char.isDigit
    if ds.isEmpty then none
    else some (-(digitsToNat ds : Int), rest.dropWhile Char.isDigit)
  | _ =>
    let ds := cs.takeWhile Char.isDigit
    if ds.isEmpty then none
    else some ((digitsToNat ds : Int), cs.dropWhile Char.isDigit)

def parseDecimalLiteral (cs : List Char) : Option Rat :=
  match parseMantissa cs with
  | none => none
  | some (m, rest) =>
    match rest with
    | [] => some m
    | 'e' :: rest2 =>
      match parseSignedDigits rest2 with
      | some (e2, []) => some (m * (10 : Rat) ^ e2)
      | _ => none
    | 'E' :: rest2 =>
      match parseSignedDigits rest2 with
      | some (e2, []) => some (m * (10 : Rat) ^ e2)
      | _ => none
    | _ => none

def jsStringToNumber (s : String) : Option Rat :=
  match (jsTrim s).toList with
  | [] => some 0
  | '+' :: rest => parseDecimalLiteral rest
  | '-' :: rest => (parseDecimalLiteral rest).map (fun v => -v)
  | cs => parseDecimalLiteral cs

/-! ## Parallax layers (src/unnamed/part_000, `ParallaxEffect.updateLayers`)

```js
const speed = layer.dataset.speed || 0.5;
const yPos = -(scrollY * speed);
layer.style.transform = `translate3d(0, <yPos>px, 0)`;
```
`||` keeps the raw attribute string whenever it is non-empty (truthy), so the
`0.5` fallback applies only to a missing or empty attribute; a non-empty
attribute string is coerced to a number by the multiplication, yielding NaN
(`none`) when it is not a numeric literal. -/

def parallaxYPos (speedAttr : Option String) (scrollY : Rat) : Option Rat :=
  match speedAttr with
  | none => some (-(scrollY * (0.5 : Rat)))
  | some s =>
    if s = "" then some (-(scrollY * (0.5 : Rat)))
    else
      match jsStringToNumber s with
      | some v => some (-(scrollY * v))
      | none => none

/-! ## Form validation (src/scripts/app.js, `initForms`)

The submit handler calls `e.preventDefault()`, iterates over the form's
`[required]` inputs flagging each blank one with the `error` class (and
clearing it on non-blank ones), and — only if every required input has
non-empty trimmed content — logs the form data, shows the `.form-success`
message when present, and calls `this.reset()`, which restores every input to
its default (empty) value. -/

structure FormInput where
  value : String
  required : Bool
  hasError : Bool
deriving DecidableEq, Repr

structure FormState where
  inputs : List FormInput
  hasSuccessMsg : Bool
  successVisible : Bool
deriving DecidableEq, Repr

structure SubmitResult where
  defaultPrevented : Bool
  state : FormState
deriving DecidableEq, Repr

def validateInput (i : FormInput) : FormInput :=
  if i.required then
    (if jsTrim i.value = "" then { i with hasError := true }
     else { i with hasError := false })
  else i

def formSubmit (f : FormState) : SubmitResult :=
  let validated := f.inputs.map validateInput
  let isValid :=
    (f.inputs.filter (fun i => i.required)).all (fun i => !(jsTrim i.value == ""))
  if isValid then
    { defaultPrevented := true
      state :=
        { inputs := validated.map (fun i => { i with value := "" })
          hasSuccessMsg := f.hasSuccessMsg
          successVisible := if f.hasSuccessMsg then true else f.successVisible } }
  else
    { defaultPrevented := true
      state := { f with inputs := validated } }

/-! ## Counter animation (src/scripts/app.js, `CounterAnimation.animate`)

```js
const progress = Math.min(elapsed / this.duration, 1);
const easeOut = 1 - Math.pow(1 - progress, 3);
const current = Math.floor(start + (end - start) * easeOut);   // start = 0, end = target
this.element.textContent = current.toLocaleString();
if (progress < 1) { requestAnimationFrame(update); }
else {
  this.element.textContent = end.toLocaleString();
  const suffix = this.element.dataset.suffix || '';
  if (suffix) { this.element.textContent += suffix; }
}
```
`Math.floor` on a rational is `Int.floor`; `toLocaleString` renders with
comma thousands separators (default locale grouping). -/

def counterProgress (duration elapsed : Rat) : Rat :=
  min (elapsed / duration) 1

def counterEaseOut (progress : Rat) : Rat :=
  1 - (1 - progress) ^ 3

def counterCurrent (target : Int) (duration elapsed : Rat) : Int :=
  Int.floor ((0 : Rat)
    + ((target : Rat) - 0) * counterEaseOut (counterProgress duration elapsed))

def commaRev : List Char → List Char
  | a :: b :: c :: d :: rest => a :: b :: c :: ',' :: commaRev (d :: rest)
  | l => l

def natToLocaleString (n : Nat) : String :=
  String.mk ((commaRev (Nat.repr n).toList.reverse).reverse)

def jsToLocaleString (n : Int) : String :=
  if n < 0 then "-" ++ natToLocaleString n.natAbs else natToLocaleString n.natAbs

def counterDisplay (target : Int) (suffix : String) (duration elapsed : Rat) : String :=
  let progress := counterProgress duration elapsed
  let current := counterCurrent target duration elapsed
  if progress < 1 then jsToLocaleString current
  else jsToLocaleString target ++ (if suffix = "" then "" else suffix)

/-- Number of `requestAnimationFrame` calls a counter animation makes:
`animate()` requests the first frame, and each serviced frame whose elapsed
time gives `progress < 1` requests one more.  `frames` lists the elapsed
times at which requested frames are actually serviced. -/
def counterRafRequests (duration : Rat) : List Rat → Nat
  | [] => 1
  | t :: rest =>
    if counterProgress duration t < 1 then 1 + counterRafRequests duration rest
    else 1

/-! ## Startup under the reduced-motion preference

part_000's `DOMContentLoaded` handler checks
`matchMedia('(prefers-reduced-motion: reduce)')` once: when it matches, it
skips constructing `ScrollReveals`, `TextReveal`, `ScrollProgress` and
`ParallaxEffect` and instead adds `revealed` to every `[data-reveal]` and
every `.text-reveal` element.  app.js's `ready` initializer constructs a
`CounterAnimation` for every `[data-counter]` element with no
reduced-motion check at all. -/

structure PageElem where
  dataReveal : Bool
  textRevealClass : Bool
  dataCounter : Bool
  revealedClass : Bool
deriving DecidableEq, Repr

def reduceMotionReveal (e : PageElem) : PageElem :=
  if e.dataReveal || e.textRevealClass then { e with revealedClass := true } else e

structure StartupResult where
  page : List PageElem
  countersCreated : List PageElem
  scrollComponentsInit : Bool
deriving DecidableEq, Repr

def scrollEffectsStartup (prefersReducedMotion : Bool) (page : List PageElem) :
    List PageElem × Bool :=
  if prefersReducedMotion then (page.map reduceMotionReveal, false)
  else (page, true)

def appStartup (prefersReducedMotion : Bool) (page : List PageElem) : StartupResult :=
  let scrolled := scrollEffectsStartup prefersReducedMotion page
  { page := scrolled.1
    countersCreated := scrolled.1.filter (fun e => e.dataCounter)
    scrollComponentsInit := scrolled.2 }

end GCT

namespace GCT

/-- Adding a class twice is the same as adding it once. -/
theorem classListAdd_idem (c : String) (l : List String) :
    classListAdd c (classListAdd c l) = classListAdd c l := by
  unfold classListAdd
  by_cases h : c ∈ l
  · simp [h]
  · simp [h]

/-- The added class is present afterwards. -/
theorem mem_classListAdd (c : String) (l : List String) : c ∈ classListAdd c l := by
  unfold classListAdd
  by_cases h : c ∈ l
  · simp [h]
  · simp [h]

/-- C3: the scroll progress bar width is `scrollTop / (scrollHeight - innerHeight) * 100`
percent when the denominator is positive and `0` when the document is not
scrollable; at `scrollHeight = 2000`, `innerHeight = 800`, `scrollY = 600` it is `50`. -/
theorem scroll_progress_correct (scrollY scrollHeight innerHeight : Rat) :
    (scrollHeight - innerHeight > 0 →
      updateProgress scrollY scrollHeight innerHeight
        = scrollY / (scrollHeight - innerHeight) * 100) ∧
    (scrollHeight - innerHeight ≤ 0 →
      updateProgress scrollY scrollHeight innerHeight = 0) ∧
    updateProgress 600 2000 800 = 50 := by
  refine ⟨fun h => ?_, fun h => ?_, by norm_num [updateProgress]⟩
  · simp [updateProgress, h]
  · simp [updateProgress, not_lt.mpr h]

/-- Witness for `scroll_progress_correct` at a concrete scrollable document. -/
theorem scroll_progress_correct_witness :
    ((2000 : Rat) - 800 > 0) ∧ updateProgress 600 2000 800 = 600 / (2000 - 800) * 100 :=
  ⟨by norm_num, (scroll_progress_correct 600 2000 800).1 (by norm_num)⟩

/-- C4: each auto-advance step maps index `i` to `(i+1) % n` (staying below `n`),
advancing 5 times from index 0 with 4 slides lands on index 1, jumping to index `k`
sets the transform to `translateX(-(k*100)%)`, and at index 1 the transform is
`translateX(-100%)`. -/
theorem carousel_auto_advance (n : Nat) (s : CarouselState) (hn : 0 < n) :
    ((carouselAutoStep n s).currentSlide = (s.currentSlide + 1) % n ∧
      (carouselAutoStep n s).currentSlide < n) ∧
    (∀ k : Nat, (goToSlide k s).transform
        = "translateX(-" ++ toString (k * 100) ++ "%)") ∧
    ((carouselAutoStep 4)^[5] ⟨0, carouselTransform 0⟩).currentSlide = 1 ∧
    ((carouselAutoStep 4)^[5] ⟨0, carouselTransform 0⟩).transform = "translateX(-100%)" := by
  refine ⟨⟨rfl, Nat.mod_lt _ hn⟩, fun k => rfl, by decide, by decide⟩

/-- Witness for `carousel_auto_advance` at 4 slides from index 3 (wraps to 0). -/
theorem carousel_auto_advance_witness :
    0 < 4 ∧ (carouselAutoStep 4 ⟨3, carouselTransform 3⟩).currentSlide = (3 + 1) % 4 :=
  ⟨by decide, ((carousel_auto_advance 4 ⟨3, carouselTransform 3⟩ (by decide)).1).1⟩

/-- C10: `PageLoader.hide` is idempotent — running it `n ≥ 1` times yields the same
final loader state as running it once, with the `hidden` class present and the
loader detached from the document. -/
theorem loader_hide_idempotent (s : LoaderState) (n : Nat) (hn : 1 ≤ n) :
    loaderHide^[n] s = loaderHide s ∧
    "hidden" ∈ (loaderHide^[n] s).classes ∧
    (loaderHide^[n] s).attached = false := by
  have hidem : ∀ t : LoaderState, loaderHide (loaderHide t) = loaderHide t := by
    intro t
    unfold loaderHide
    simp [classListAdd_idem]
  have hiter0 : ∀ m : Nat, loaderHide^[m] (loaderHide s) = loaderHide s := by
    intro m
    induction m with
    | zero => rfl
    | succ k ih => rw [Function.iterate_succ_apply', ih, hidem]
  have hiter : loaderHide^[n] s = loaderHide s := by
    obtain ⟨m, rfl⟩ := Nat.exists_eq_add_of_le hn
    rw [Nat.add_comm, Function.iterate_add_apply, Function.iterate_one]
    exact hiter0 m
  refine ⟨hiter, ?_, ?_⟩
  · rw [hiter]; exact mem_classListAdd _ _
  · rw [hiter]; rfl

/-- Witness for `loader_hide_idempotent`: hiding twice from a fresh loader equals
hiding once. -/
theorem loader_hide_idempotent_witness :
    1 ≤ 2 ∧ loaderHide^[2] ⟨[], true⟩ = loaderHide ⟨[], true⟩ :=
  ⟨by decide, (loader_hide_idempotent ⟨[], true⟩ 2 (by decide)).1⟩

/-- The observer callback on an intersecting entry, written pointwise. -/
theorem observerCallback_apply {n : Nat} (e : Fin n) (s : RevealState n) :
    observerCallback e true s =
      ⟨Function.update s.revealed e true, Function.update s.observed e false⟩ := by
  simp [observerCallback, unobserve, revealElement]

/-- C2: a sufficient intersection marks the element revealed and removes it from
observation, re-delivering the intersection changes nothing further, and when
intersection observation is unavailable every marked element is revealed by `init`. -/
theorem reveal_fire_once (n : Nat) (e : Fin n) (s : RevealState n)
    (marked : Fin n → Bool) :
    (observerCallback e true s).revealed e = true ∧
    (observerCallback e true s).observed e = false ∧
    observerCallback e true (observerCallback e true s) = observerCallback e true s ∧
    (∀ e2 : Fin n, marked e2 = true →
      (scrollRevealsInit false marked s).revealed e2 = true) := by
  refine ⟨?_, ?_, ?_, ?_⟩
  · rw [observerCallback_apply]; simp
  · rw [observerCallback_apply]; simp
  · rw [observerCallback_apply, observerCallback_apply]
    simp [Function.update_idem]
  · intro e2 h2
    simp [scrollRevealsInit, revealAll, h2]

/-- Witness for `reveal_fire_once`: one marked element, no observer support. -/
theorem reveal_fire_once_witness :
    ((fun _ : Fin 1 => true) 0 = true) ∧
    (scrollRevealsInit false (fun _ => true)
      (⟨fun _ => false, fun _ => false⟩ : RevealState 1)).revealed 0 = true :=
  ⟨rfl, (reveal_fire_once 1 0 ⟨fun _ => false, fun _ => false⟩ (fun _ => true)).2.2.2
    0 rfl⟩

/-- A click leaves item `j` open exactly when `j` is the clicked item and it was
previously closed. -/
theorem faqClick_apply {n : Nat} (i : Fin n) (t : Fin n → Bool) (j : Fin n) :
    faqClick i t j = if j = i then !(t i) else false := by
  by_cases h : j = i
  · subst h
    simp [faqClick, faqToggle, faqCloseOthers, Function.update_same]
  · simp [faqClick, faqToggle, faqCloseOthers, Function.update_apply, h]

/-- C5: clicking item `b` while only item `a` is open leaves exactly `b` open and
`a` closed, clicking `b` again leaves zero items open, and after any click at most
one item is open. -/
theorem faq_single_open (n : Nat) (a b : Fin n) (s : Fin n → Bool)
    (hab : a ≠ b) (_ha : s a = true) (honly : ∀ j, j ≠ a → s j = false) :
    (faqClick b s b = true ∧ ∀ j, j ≠ b → faqClick b s j = false) ∧
    (∀ j, faqClick b (faqClick b s) j = false) ∧
    (∀ (i : Fin n) (t : Fin n → Bool) (j₁ j₂ : Fin n),
        faqClick i t j₁ = true → faqClick i t j₂ = true → j₁ = j₂) := by
  have hb : s b = false := honly b (Ne.symm hab)
  have hclick : faqClick b s b = true := by
    rw [faqClick_apply]; simp [hb]
  refine ⟨⟨hclick, ?_⟩, ?_, ?_⟩
  · intro j hj
    rw [faqClick_apply]; simp [hj]
  · intro j
    by_cases hj : j = b
    · subst hj
      rw [faqClick_apply]; simp [hclick]
    · rw [faqClick_apply]; simp [hj]
  · intro i t j₁ j₂ h1 h2
    rw [faqClick_apply] at h1 h2
    by_cases h1i : j₁ = i
    · by_cases h2i : j₂ = i
      · rw [h1i, h2i]
      · simp [h2i] at h2
    · simp [h1i] at h1

/-- Witness for `faq_single_open`: two items, item 0 open, click item 1. -/
theorem faq_single_open_witness :
    faqClick (1 : Fin 2) (fun j => j.val == 0) 1 = true :=
  ((faq_single_open 2 0 1 (fun j => j.val == 0) (by decide) (by decide)
    (by decide)).1).1

/-- C7 counterexample: a layer whose speed attribute is the non-numeric string
`"fast"` at `scrollY = 100` gets a NaN offset, not the `-(100 * 0.5)` the claim's
0.5 fallback would give. -/
theorem parallax_invalid_speed_counterexample :
    parallaxYPos (some "fast") 100 = none ∧
    parallaxYPos (some "fast") 100 ≠ some (-(100 * (0.5 : Rat))) := by
  refine ⟨rfl, ?_⟩
  intro h
  exact Option.noConfusion (rfl.trans h)

/-- C7 amended: the vertical translation is `-(scrollY * speed)` where speed falls
back to 0.5 exactly when the attribute is missing or empty; a non-empty attribute
is coerced to a number, and a non-numeric one yields a NaN offset rather than the
fallback. -/
theorem parallax_speed_amended (scrollY : Rat) (speedAttr : Option String) :
    ((speedAttr = none ∨ speedAttr = some "") →
      parallaxYPos speedAttr scrollY = some (-(scrollY * (0.5 : Rat)))) ∧
    (∀ s v, speedAttr = some s → s ≠ "" → jsStringToNumber s = some v →
      parallaxYPos speedAttr scrollY = some (-(scrollY * v))) ∧
    (∀ s, speedAttr = some s → s ≠ "" → jsStringToNumber s = none →
      parallaxYPos speedAttr scrollY = none) := by
  refine ⟨?_, ?_, ?_⟩
  · rintro (rfl | rfl)
    · rfl
    · rfl
  · rintro s v rfl hs hv
    simp [parallaxYPos, hs, hv]
  · rintro s rfl hs hv
    simp [parallaxYPos, hs, hv]

/-- Witness for `parallax_speed_amended`: empty attribute at `scrollY = 100`. -/
theorem parallax_speed_amended_witness :
    ((some "" : Option String) = none ∨ (some "" : Option String) = some "") ∧
    parallaxYPos (some "") 100 = some (-((100 : Rat) * 0.5)) ∧
    -((100 : Rat) * 0.5) = -50 :=
  ⟨Or.inr rfl, (parallax_speed_amended 100 (some "")).1 (Or.inr rfl), by norm_num⟩

/-- Validation never changes an input's value, only its error flag. -/
theorem validateInput_value (i : FormInput) : (validateInput i).value = i.value := by
  unfold validateInput
  split
  · split <;> rfl
  · rfl

/-- Zipping a list with its image pairs each element with its image. -/
theorem zip_map_self {α β : Type} (l : List α) (g : α → β) :
    l.zip (l.map g) = l.map (fun a => (a, g a)) := by
  induction l with
  | nil => rfl
  | cons x xs ih => simp [ih]

/-- C8: submit always intercepts default submission; when some required input is
blank every blank required input is flagged with the error state, no success
message appears and no value is reset; otherwise every value is reset to empty
and the success message (if present) is shown. -/
theorem form_submit_correct (f : FormState) :
    (formSubmit f).defaultPrevented = true ∧
    ((∃ i ∈ f.inputs, i.required = true ∧ jsTrim i.value = "") →
      ((formSubmit f).state.successVisible = f.successVisible ∧
       (∀ p ∈ f.inputs.zip (formSubmit f).state.inputs,
          p.2.value = p.1.value ∧
          (p.1.required = true → jsTrim p.1.value = "" → p.2.hasError = true)))) ∧
    ((∀ i ∈ f.inputs, i.required = true → jsTrim i.value ≠ "") →
      ((∀ i ∈ (formSubmit f).state.inputs, i.value = "") ∧
       (f.hasSuccessMsg = true → (formSubmit f).state.successVisible = true))) := by
  refine ⟨?_, ?_, ?_⟩
  · simp only [formSubmit]
    split <;> rfl
  · intro hex
    obtain ⟨i, hi, hr, hb⟩ := hex
    have hv : (f.inputs.filter (fun i => i.required)).all
        (fun i => !(jsTrim i.value == "")) = false := by
      apply List.all_eq_false.mpr
      exact ⟨i, List.mem_filter.mpr ⟨hi, by simp [hr]⟩, by simp [hb]⟩
    have hinputs : (formSubmit f).state.inputs = f.inputs.map validateInput := by
      simp [formSubmit, hv]
    refine ⟨by simp [formSubmit, hv], ?_⟩
    intro p hp
    rw [hinputs, zip_map_self] at hp
    obtain ⟨a, _, rfl⟩ := List.mem_map.mp hp
    refine ⟨validateInput_value a, ?_⟩
    intro hreq hblank
    have hreq2 : a.required = true := hreq
    have hblank2 : jsTrim a.value = "" := hblank
    simp [validateInput, hreq2, hblank2]
  · intro hall
    have hv : (f.inputs.filter (fun i => i.required)).all
        (fun i => !(jsTrim i.value == "")) = true := by
      apply List.all_eq_true.mpr
      intro x hx
      have hx2 := List.mem_filter.mp hx
      have hne := hall x hx2.1 (by simpa using hx2.2)
      simp [hne]
    refine ⟨?_, ?_⟩
    · intro i hi
      have hinputs : (formSubmit f).state.inputs
          = (f.inputs.map validateInput).map (fun i => { i with value := "" }) := by
        simp [formSubmit, hv]
      rw [hinputs] at hi
      obtain ⟨a, _, rfl⟩ := List.mem_map.mp hi
      rfl
    · intro hmsg
      simp [formSubmit, hv, hmsg]

/-- Witness for `form_submit_correct`: a valid one-field form gets reset. -/
theorem form_submit_correct_witness :
    (∀ i ∈ ([⟨"hello", true, false⟩] : List FormInput),
      i.required = true → jsTrim i.value ≠ "") ∧
    ∀ i ∈ (formSubmit ⟨[⟨"hello", true, false⟩], true, false⟩).state.inputs,
      i.value = "" :=
  ⟨by decide,
    ((form_submit_correct ⟨[⟨"hello", true, false⟩], true, false⟩).2.2 (by decide)).1⟩

/-- The displayed counter value in the algebraic form used by the spec. -/
theorem counterCurrent_eq (target : Int) (duration elapsed : Rat) :
    counterCurrent target duration elapsed
      = Int.floor ((target : Rat) * counterEaseOut (counterProgress duration elapsed)) := by
  unfold counterCurrent
  congr 1
  ring

/-- C1: at elapsed time `t` the displayed value is
`floor(target * (1 - (1 - progress)^3))` with `progress = min(t/duration, 1)`,
and once progress reaches 1 the display is exactly the locale-formatted target
with the literal suffix appended. -/
theorem counter_display_correct (target : Int) (suffix : String)
    (duration elapsed : Rat) :
    counterCurrent target duration elapsed
      = Int.floor ((target : Rat) * (1 - (1 - min (elapsed / duration) 1) ^ 3)) ∧
    (counterProgress duration elapsed < 1 →
      counterDisplay target suffix duration elapsed
        = jsToLocaleString (counterCurrent target duration elapsed)) ∧
    (counterProgress duration elapsed = 1 →
      counterDisplay target suffix duration elapsed
        = jsToLocaleString target ++ suffix) := by
  refine ⟨?_, ?_, ?_⟩
  · rw [counterCurrent_eq]
    rfl
  · intro h
    simp [counterDisplay, h]
  · intro h
    have hnl : ¬ counterProgress duration elapsed < 1 := by
      rw [h]
      exact lt_irrefl 1
    by_cases hsuf : suffix = ""
    · simp [counterDisplay, hnl, hsuf]
    · simp [counterDisplay, hnl, hsuf]

/-- Witness for `counter_display_correct`: target 1000 with suffix at the end of
a 2000ms animation displays the grouped string. -/
theorem counter_display_correct_witness :
    counterProgress 2000 2000 = 1 ∧
    counterDisplay 1000 "+" 2000 2000 = jsToLocaleString 1000 ++ "+" ∧
    jsToLocaleString 1000 ++ "+" = "1,000+" := by
  have hp : counterProgress 2000 2000 = 1 := by
    unfold counterProgress
    rw [min_eq_right]
    norm_num
  exact ⟨hp, (counter_display_correct 1000 "+" 2000 2000).2.2 hp, by decide⟩

/-- C9 counterexample: with the (code-accepted) negative target `-8` over a
2000ms animation, the displayed value goes from 0 at elapsed 0 down to -7 at
elapsed 1000 — the frame sequence is not non-decreasing. -/
theorem counter_monotone_counterexample :
    counterCurrent (-8) 2000 0 = 0 ∧
    counterCurrent (-8) 2000 1000 = -7 ∧
    ¬ counterCurrent (-8) 2000 0 ≤ counterCurrent (-8) 2000 1000 := by
  have hp0 : counterProgress 2000 0 = 0 := by
    unfold counterProgress
    rw [zero_div]
    exact min_eq_left (by norm_num)
  have hp : counterProgress 2000 1000 = 1 / 2 := by
    unfold counterProgress
    rw [min_eq_left (by norm_num)]
    norm_num
  have h1 : counterCurrent (-8) 2000 0 = 0 := by
    rw [counterCurrent_eq, hp0]
    unfold counterEaseOut
    norm_num
  have h2 : counterCurrent (-8) 2000 1000 = -7 := by
    rw [counterCurrent_eq, hp]
    unfold counterEaseOut
    have hcast : ((-8 : Int) : Rat) * (1 - (1 - 1 / 2) ^ 3) = ((-7 : Int) : Rat) := by
      push_cast
      norm_num
    rw [hcast, Int.floor_intCast]
  refine ⟨h1, h2, ?_⟩
  rw [h1, h2]
  decide

/-- C9 amended: for a counter element with nonnegative target, the displayed
value over successive frames is monotonically non-decreasing, starts at 0 at
elapsed 0, and equals the exact target once elapsed reaches the duration. -/
theorem counter_monotone (target : Int) (duration t1 t2 : Rat)
    (htarget : 0 ≤ target) (hd : 0 < duration) (_h0 : 0 ≤ t1) (h12 : t1 ≤ t2) :
    counterCurrent target duration t1 ≤ counterCurrent target duration t2 ∧
    counterCurrent target duration 0 = 0 ∧
    (duration ≤ t2 → counterCurrent target duration t2 = target) := by
  have hple : ∀ t : Rat, counterProgress duration t ≤ 1 := fun t => min_le_right _ _
  refine ⟨?_, ?_, ?_⟩
  · have hdiv : t1 / duration ≤ t2 / duration := by gcongr
    have hpmono : counterProgress duration t1 ≤ counterProgress duration t2 :=
      min_le_min hdiv le_rfl
    have hcube : (1 - counterProgress duration t2) ^ 3
        ≤ (1 - counterProgress duration t1) ^ 3 := by
      have h2 : (0 : Rat) ≤ 1 - counterProgress duration t2 := by
        have := hple t2
        linarith
      exact pow_le_pow_left₀ h2 (by linarith) 3
    have hease : counterEaseOut (counterProgress duration t1)
        ≤ counterEaseOut (counterProgress duration t2) := by
      unfold counterEaseOut
      linarith
    have hmul : (target : Rat) * counterEaseOut (counterProgress duration t1)
        ≤ (target : Rat) * counterEaseOut (counterProgress duration t2) := by
      apply mul_le_mul_of_nonneg_left hease
      exact_mod_cast htarget
    rw [counterCurrent_eq, counterCurrent_eq]
    exact Int.floor_le_floor hmul
  · have hp0 : counterProgress duration 0 = 0 := by
      unfold counterProgress
      rw [zero_div]
      exact min_eq_left (by norm_num)
    rw [counterCurrent_eq, hp0]
    unfold counterEaseOut
    norm_num
  · intro hend
    have hp1 : counterProgress duration t2 = 1 := by
      unfold counterProgress
      exact min_eq_right ((one_le_div hd).mpr hend)
    rw [counterCurrent_eq, hp1]
    unfold counterEaseOut
    norm_num

/-- Witness for `counter_monotone`: target 1000 over 1000ms lands exactly on
1000 at the end. -/
theorem counter_monotone_witness :
    (0 : Int) ≤ 1000 ∧ (0 : Rat) < 1000 ∧
    counterCurrent 1000 1000 1000 = 1000 :=
  ⟨by norm_num, by norm_num,
    (counter_monotone 1000 1000 0 1000 (by norm_num) (by norm_num) le_rfl
      (by norm_num)).2.2 (by norm_num)⟩

/-- Reveal-on-startup never changes an element's markers, and reveals every
marked element. -/
theorem reduceMotionReveal_marks (a : PageElem) :
    (reduceMotionReveal a).dataReveal = a.dataReveal ∧
    (reduceMotionReveal a).textRevealClass = a.textRevealClass ∧
    ((a.dataReveal = true ∨ a.textRevealClass = true) →
      (reduceMotionReveal a).revealedClass = true) := by
  unfold reduceMotionReveal
  split_ifs with h
  · exact ⟨rfl, rfl, fun _ => rfl⟩
  · refine ⟨rfl, rfl, fun hm => ?_⟩
    exfalso
    rcases hm with hm | hm <;> simp [hm] at h

/-- C6 counterexample: with the reduced-motion preference on, a page holding one
`[data-counter]` element still gets a `CounterAnimation` constructed at startup,
and that animation consumes 2 animation-frame requests when its first serviced
frame arrives at 500ms of a 2000ms run — not the zero frames the claim states. -/
theorem reduced_motion_counterexample :
    (appStartup true [⟨false, false, true, false⟩]).countersCreated
      = [⟨false, false, true, false⟩] ∧
    counterRafRequests 2000 [500] = 2 := by
  refine ⟨rfl, ?_⟩
  have hp : counterProgress 2000 500 < 1 := by
    unfold counterProgress
    rw [min_eq_left (by norm_num)]
    norm_num
  simp [counterRafRequests, hp]

/-- C6 amended: with the reduced-motion preference on, every `[data-reveal]` and
`.text-reveal` element is revealed immediately and none of the scroll-effect
components (scroll reveals, text reveal, scroll progress, parallax) is
initialized; the counter animation is not gated by the preference. -/
theorem reduced_motion_amended (page : List PageElem) :
    (∀ e ∈ (appStartup true page).page,
      (e.dataReveal = true ∨ e.textRevealClass = true) → e.revealedClass = true) ∧
    (appStartup true page).scrollComponentsInit = false := by
  constructor
  · intro e he hmark
    have hpage : (appStartup true page).page = page.map reduceMotionReveal := rfl
    rw [hpage] at he
    obtain ⟨a, _, rfl⟩ := List.mem_map.mp he
    apply (reduceMotionReveal_marks a).2.2
    rcases hmark with h | h
    · left
      rw [← (reduceMotionReveal_marks a).1]
      exact h
    · right
      rw [← (reduceMotionReveal_marks a).2.1]
      exact h
  · rfl

/-- Witness for `reduced_motion_amended`: a single `[data-reveal]` element is
revealed by the reduced-motion startup. -/
theorem reduced_motion_amended_witness :
    ((⟨true, false, false, true⟩ : PageElem)
        ∈ (appStartup true [⟨true, false, false, false⟩]).page) ∧
    (⟨true, false, false, true⟩ : PageElem).revealedClass = true :=
  ⟨by decide,
    (reduced_motion_amended [⟨true, false, false, false⟩]).1
      ⟨true, false, false, true⟩ (by decide) (Or.inl rfl)⟩

end GCT
